import Mathlib

/-!
Shallow embedding of the databricks-ops workflow reconciler
(src/workflow/main.py, version_utils.py, json_utils.py, update_jobs.py,
delete_jobs.py, create_jobs.py, get_jobs.py) together with theorems settling
the frozen claims about its specification.

Remote HTTP calls and the S3 blob store are the program's only effects; the
store is threaded explicitly as an association list keyed by the S3 key (the
bucket is the single constant bucket), and per-item network outcomes are
supplied as oracle functions, so every definition is executable.  Python
exceptions are modelled with `Except`; Python `None` with `Option`.
-/

namespace DatabricksOps

/-- The Python exceptions this code can raise or propagate. -/
inductive PyError where
  | valueError
  | typeError
  | attributeError
  | keyError
deriving DecidableEq, Repr

/-- One rendered task payload, i.e. the dict produced by
create_task_payload (task_payload.py): a task-type specific block plus the
common fields.  The reconciliation engine never inspects these values; they
are only carried inside job payloads and compared for deep equality. -/
inductive TaskBody where
  | notebook (notebook_path : String)
  | python (python_file : String) (parameters : List String)
  | sql (path : String)
  | dbt (project_directory : String) (commands : List String)
deriving DecidableEq, Repr

/-- The common fields create_task_payload merges into every task payload. -/
structure TaskPayload where
  task_key : String
  body : TaskBody
  new_cluster : List (String × String)
  libraries : List String
  timeout_seconds : Int
  email_on_success : List String
  email_on_failure : List String
  depends_on : Option String
deriving DecidableEq, Repr

/-- The rendered job dict built per workflow in process_workflow (main.py
lines 188-210).  Only the keys that vary with the workflow definition are
recorded ("name", the two accumulated email lists, the cron expression and
"tasks"); the remaining keys of that dict are the same literal constants for
every workflow and every run, so they cannot distinguish two rendered jobs
under deep equality. -/
structure RenderedJob where
  name : String
  email_on_success : List String
  email_on_failure : List String
  schedule : String
  tasks : List TaskPayload
deriving DecidableEq, Repr

/-- A workflow entry as the engine passes it around: the rendered payload
dict, plus the "job_id" key optionally added by
update_extended_workflow_data_with_job_ids.  `job_id = none` models the key
being absent; `job_id = some v` models the key being present with value `v`,
where `v = none` models a stored Python `None`. -/
structure JobDict where
  payload : RenderedJob
  job_id : Option (Option Nat)
deriving DecidableEq, Repr

/-- The raw workflow definition from the config file, as the engine consumes
it: only the "job_name" key is ever read (via .get with default ""), so a
missing job_name is modelled as the empty string. -/
structure WorkflowCfg where
  job_name : String
deriving DecidableEq, Repr

/-- The metadata block of a persisted state snapshot. -/
structure Metadata where
  version : String
  timestamp : String
deriving DecidableEq, Repr

/-- A persisted state snapshot: metadata plus the workflow-name-keyed config
mapping (Python dicts preserve insertion order, hence association lists). -/
structure StateSnapshot where
  metadata : Metadata
  config : List (String × JobDict)
deriving DecidableEq, Repr

/-- The extended/desired workflow mapping (workflow name to job dict). -/
abbrev Ext := List (String × JobDict)

/-- The S3 bucket contents, keyed by S3 key.  Writes cons a fresh binding;
reads take the first binding, giving overwrite semantics. -/
abbrev Store := List (String × StateSnapshot)

/-- BUCKET_NAME from consts.py. -/
def BUCKET_NAME : String := "databricks-workflow"

/-- CURRENT_STATE_FILEPATH from consts.py. -/
def CURRENT_STATE_FILEPATH : String := "current_state.json"

/-- HISTORIC_STATE_FILEPATH from consts.py. -/
def HISTORIC_STATE_FILEPATH : String := "historic_state.json"

/-- write_json_to_s3 (json_utils.py lines 27-37).  The guard is the code's
literal condition `if not bucket_name or s3_key`, which raises ValueError
when the bucket name is empty OR the key is NON-empty; only when the guard
passes is the object stored (the put itself is wrapped in try/except and
reported by the returned Bool, modelled as always succeeding). -/
def write_json_to_s3 (data : StateSnapshot) (bucket_name s3_key : String)
    (store : Store) : Store × Except PyError Bool :=
  if bucket_name = "" ∨ s3_key ≠ "" then (store, .error .valueError)
  else ((s3_key, data) :: store, .ok true)

/-- read_json_file_from_s3 (json_utils.py lines 59-69): raises ValueError on
an empty bucket or key, otherwise returns the stored object, or None when
the get fails (every exception is swallowed and the function falls through
returning None); a missing key models the failed get. -/
def read_json_file_from_s3 (store : Store) (bucket_name s3_key : String) :
    Except PyError (Option StateSnapshot) :=
  if bucket_name = "" ∨ s3_key = "" then .error .valueError
  else .ok (List.lookup s3_key store)

/-- Digit-by-digit accumulation for Python's int() on a decimal literal. -/
def digitsAux : List Char → Nat → Option Nat
  | [], acc => some acc
  | c :: cs, acc =>
    if c.isDigit then digitsAux cs (acc * 10 + (c.toNat - 48)) else none

/-- Parse a non-empty all-digit character list as a Nat. -/
def digitsToNat : List Char → Option Nat
  | [] => none
  | cs => digitsAux cs 0

/-- Python's int() applied to one component of a version string.  We cover
an optional leading minus sign followed by decimal digits, the only integer
forms this program ever produces or the claims exercise (Python additionally
strips whitespace and allows a plus sign and digit-group underscores). -/
def parseIntPy (s : String) : Option Int :=
  match s.data with
  | '-' :: rest => (digitsToNat rest).map (fun n => -(n : Int))
  | cs => (digitsToNat cs).map (fun n => (n : Int))

/-- Split a character list on a separator character, Python str.split
style: "a..b" gives ["a", "", "b"] and "" gives [""]. -/
def splitCharList (sep : Char) : List Char → List (List Char)
  | [] => [[]]
  | c :: cs =>
    if c = sep then [] :: splitCharList sep cs
    else
      match splitCharList sep cs with
      | h :: t => (c :: h) :: t
      | [] => [[c]]

/-- Python `s.split('.')`. -/
def splitDots (s : String) : List String :=
  (splitCharList '.' s.data).map (fun cs => String.mk cs)

/-- `major, minor = map(int, current_version.split('.'))` as one step: some
pair when the string is exactly two integers separated by a dot, none when
the unpacking or a conversion would raise. -/
def parsedVersion (s : String) : Option (Int × Int) :=
  match splitDots s with
  | [a, b] =>
    match parseIntPy a, parseIntPy b with
    | some major, some minor => some (major, minor)
    | _, _ => none
  | _ => none

/-- generate_version (version_utils.py lines 8-28): a falsy current version
(None or "") yields "1.0"; otherwise the string is parsed as two integers
(a malformed string raises ValueError); minor 9 rolls over to major+1 and
minor 0, otherwise minor is incremented. -/
def generate_version (current_version : Option String) : Except PyError String :=
  match current_version with
  | none => .ok "1.0"
  | some s =>
    if s = "" then .ok "1.0"
    else
      match parsedVersion s with
      | none => .error .valueError
      | some (major, minor) =>
        if minor == 9 then .ok (toString (major + 1) ++ ".0")
        else .ok (toString major ++ "." ++ toString (minor + 1))

/-- get_current_version (version_utils.py lines 31-55).  The code tests
`if data is None:` the wrong way round: a successful read falls into the
else/pass branch and the function returns None, while a failed read (data
actually None) subscripts None, raising a TypeError that the except clause
(FileNotFoundError, JSONDecodeError, KeyError) does not catch.  A ValueError
from the read guard would propagate likewise. -/
def get_current_version (store : Store) (bucket_name file_path : String) :
    Except PyError (Option String) :=
  match read_json_file_from_s3 store bucket_name file_path with
  | .error e => .error e
  | .ok none => .error .typeError
  | .ok (some _) => .ok none

/-- create_json_with_metadata (main.py lines 66-97): generate the next
version label from the current one and wrap the extended workflow data with
a metadata block; `now` stands for the datetime.now() timestamp string. -/
def create_json_with_metadata (extended_workflow_data : Ext)
    (current_version : Option String) (now : String) :
    Except PyError StateSnapshot :=
  match generate_version current_version with
  | .error e => .error e
  | .ok version => .ok ⟨⟨version, now⟩, extended_workflow_data⟩

/-- update_state_file (main.py lines 100-119): read the current version,
build the new snapshot, write it under the historic key and then under the
current key.  Exceptions propagate; the store is returned as left by the
last attempted write. -/
def update_state_file (extended_workflow_data : Ext) (store : Store)
    (now : String) : Store × Except PyError Unit :=
  match get_current_version store BUCKET_NAME CURRENT_STATE_FILEPATH with
  | .error e => (store, .error e)
  | .ok current_version =>
    match create_json_with_metadata extended_workflow_data current_version now with
    | .error e => (store, .error e)
    | .ok json_data =>
      match write_json_to_s3 json_data BUCKET_NAME
          (HISTORIC_STATE_FILEPATH ++ "/state_file_" ++ json_data.metadata.version ++ ".json")
          store with
      | (store1, .error e) => (store1, .error e)
      | (store1, .ok _) =>
        match write_json_to_s3 json_data BUCKET_NAME CURRENT_STATE_FILEPATH store1 with
        | (store2, .error e) => (store2, .error e)
        | (store2, .ok _) => (store2, .ok ())

/-- `state_file_workflow_details.get(workflow_name, {}).get("job_id", None)`
(main.py line 52): the job identifier recorded in the snapshot for this
workflow name, None when the workflow or the key is absent. -/
def stateJobId (state_file_workflow_details : Ext) (workflow_name : String) :
    Option Nat :=
  match List.lookup workflow_name state_file_workflow_details with
  | some entry => entry.job_id.getD none
  | none => none

/-- `extended_workflow_data[workflow_name]["job_id"] = v`: set the job_id
key of the entry bound to this workflow name (all bindings with that key,
of which the dicts have at most one). -/
def setJobId (ext : Ext) (workflow_name : String) (v : Option Nat) : Ext :=
  ext.map (fun p => (p.1, if p.1 = workflow_name then ⟨p.2.payload, some v⟩ else p.2))

/-- The loop body of update_extended_workflow_data_with_job_ids (main.py
lines 48-60), with the membership list already known to be a real list and
the fresh-id queue normalised to a list (None and [] are both falsy at the
`elif new_job_ids:` test, and the pop only happens on a non-empty list).
Indexing a workflow name absent from extended_workflow_data raises
KeyError. -/
def updateExtendedLoop (state_file_workflow_details : Ext)
    (existing_jobs_names : List String) :
    List (String × WorkflowCfg) → Ext → List Nat → Except PyError Ext
  | [], ext, _ => .ok ext
  | (workflow_name, details) :: rest, ext, queue =>
    if existing_jobs_names.contains details.job_name then
      if (List.lookup workflow_name ext).isSome then
        updateExtendedLoop state_file_workflow_details existing_jobs_names rest
          (setJobId ext workflow_name (stateJobId state_file_workflow_details workflow_name))
          queue
      else .error .keyError
    else
      match queue with
      | jid :: qrest =>
        if (List.lookup workflow_name ext).isSome then
          updateExtendedLoop state_file_workflow_details existing_jobs_names rest
            (setJobId ext workflow_name (some jid)) qrest
        else .error .keyError
      | [] =>
        updateExtendedLoop state_file_workflow_details existing_jobs_names rest ext []

/-- update_extended_workflow_data_with_job_ids (main.py lines 26-63).  The
membership test `job_name in existing_jobs_names` raises TypeError when the
inventory is None; it is first evaluated on the first iteration, so an empty
workflow_data never reaches it. -/
def update_extended_workflow_data_with_job_ids (extended_workflow_data : Ext)
    (workflow_data : List (String × WorkflowCfg))
    (state_file_workflow_details : Ext)
    (existing_jobs_names : Option (List String))
    (new_job_ids : Option (List Nat)) : Except PyError Ext :=
  match workflow_data with
  | [] => .ok extended_workflow_data
  | _ :: _ =>
    match existing_jobs_names with
    | none => .error .typeError
    | some existing =>
      updateExtendedLoop state_file_workflow_details existing workflow_data
        extended_workflow_data (new_job_ids.getD [])

/-- identify_removed_jobs (main.py lines 122-142): every snapshot workflow
absent from the desired mapping contributes its stored job id (None when
the key is missing), in snapshot-iteration order. -/
def identify_removed_jobs (extended_workflow_data : Ext)
    (state_file_workflow_details : Ext) : List (Option Nat) :=
  state_file_workflow_details.foldl
    (fun acc p =>
      if (List.lookup p.1 extended_workflow_data).isSome then acc
      else acc ++ [p.2.job_id.getD none])
    []

/-- The update-queue construction of update_jobs_workflow (main.py lines
234-245): each desired entry is compared by dict equality against a copy of
the snapshot entry for its name ({} when absent, never equal to a job
dict); an unequal entry is queued together with the job_id popped from the
copy (None when absent).  Note the comparison happens BEFORE the pop, so
the snapshot entry's job_id key participates in it. -/
def jobs_to_update (extended_workflow_data : Ext)
    (state_file_workflow_details : Ext) :
    List (String × (Option Nat × JobDict)) :=
  extended_workflow_data.foldl
    (fun acc p =>
      match List.lookup p.1 state_file_workflow_details with
      | some current =>
        if p.2 = current then acc
        else acc ++ [(p.1, (current.job_id.getD none, p.2))]
      | none => acc ++ [(p.1, (none, p.2))])
    []

/-- update_jobs (update_jobs.py): zip ids with payloads, POST each pair,
AND the per-item outcomes (every item is attempted); `respOk` is the
network oracle giving each POST's outcome.  Also returns the list of POSTs
issued. -/
def update_jobs (respOk : Option Nat → JobDict → Bool)
    (job_ids : List (Option Nat)) (jobs_update_data : List JobDict) :
    Bool × List (Option Nat × JobDict) :=
  ((job_ids.zip jobs_update_data).foldl
      (fun success item => success && respOk item.1 item.2) true,
    job_ids.zip jobs_update_data)

/-- delete_jobs (delete_jobs.py): POST each id, AND the outcomes. -/
def delete_jobs (delOk : Option Nat → Bool) (jobs_ids : List (Option Nat)) : Bool :=
  jobs_ids.foldl (fun success jid => success && delOk jid) true

/-- create_jobs (create_jobs.py): for each payload whose name is not in the
existing-name list, POST it; collect the ids of jobs actually created
(`createResp job = some id` models a 200 response carrying job_id, `none`
any failed creation).  Also returns the list of POSTs issued. -/
def create_jobs (createResp : JobDict → Option Nat) (existing_jobs : List String)
    (jobs_data : List JobDict) : List Nat × List JobDict :=
  jobs_data.foldl
    (fun acc data =>
      if existing_jobs.contains data.payload.name then acc
      else
        match createResp data with
        | some new_id => (acc.1 ++ [new_id], acc.2 ++ [data])
        | none => (acc.1, acc.2 ++ [data]))
    ([], [])

/-- update_jobs_workflow (main.py lines 219-271): build the update queue;
when non-empty, run the update batch and, only on full success, reattach
job ids and persist a new snapshot.  Returns the POSTs issued, the store
and the (possibly mutated) extended data or the exception raised. -/
def update_jobs_workflow (respOk : Option Nat → JobDict → Bool)
    (extended_workflow_data : Ext) (workflow_data : List (String × WorkflowCfg))
    (state_file_workflow_details : Ext)
    (existing_jobs_names : Option (List String)) (store : Store) (now : String) :
    List (Option Nat × JobDict) × Store × Except PyError Ext :=
  match jobs_to_update extended_workflow_data state_file_workflow_details with
  | [] => ([], store, .ok extended_workflow_data)
  | jtu =>
    match update_jobs respOk (jtu.map (fun x => x.2.1)) (jtu.map (fun x => x.2.2)) with
    | (false, calls) => (calls, store, .ok extended_workflow_data)
    | (true, calls) =>
      match update_extended_workflow_data_with_job_ids extended_workflow_data
          workflow_data state_file_workflow_details existing_jobs_names none with
      | .error e => (calls, store, .error e)
      | .ok ext2 =>
        match update_state_file ext2 store now with
        | (store2, .error e) => (calls, store2, .error e)
        | (store2, .ok _) => (calls, store2, .ok ext2)

/-- delete_jobs_workflow (main.py lines 274-309): delete the removed jobs;
on full success reattach ids and persist. -/
def delete_jobs_workflow (delOk : Option Nat → Bool)
    (extended_workflow_data : Ext) (workflow_data : List (String × WorkflowCfg))
    (state_file_workflow_details : Ext)
    (existing_jobs_names : Option (List String)) (store : Store) (now : String) :
    List (Option Nat) × Store × Except PyError Ext :=
  match identify_removed_jobs extended_workflow_data state_file_workflow_details with
  | [] => ([], store, .ok extended_workflow_data)
  | jobs_to_delete =>
    match delete_jobs delOk jobs_to_delete with
    | false => (jobs_to_delete, store, .ok extended_workflow_data)
    | true =>
      match update_extended_workflow_data_with_job_ids extended_workflow_data
          workflow_data state_file_workflow_details existing_jobs_names none with
      | .error e => (jobs_to_delete, store, .error e)
      | .ok ext2 =>
        match update_state_file ext2 store now with
        | (store2, .error e) => (jobs_to_delete, store2, .error e)
        | (store2, .ok _) => (jobs_to_delete, store2, .ok ext2)

/-- create_jobs_workflow (main.py lines 312-346): gated on the truthiness
of existing_jobs_names (both None and the empty list skip the whole phase);
otherwise batch-create the full desired list and, when any new ids came
back, reattach ids (consuming the new ones FIFO) and persist. -/
def create_jobs_workflow (createResp : JobDict → Option Nat)
    (extended_workflow_data : Ext) (workflow_data : List (String × WorkflowCfg))
    (state_file_workflow_details : Ext)
    (existing_jobs_names : Option (List String)) (store : Store) (now : String) :
    List JobDict × Store × Except PyError Ext :=
  match existing_jobs_names with
  | none => ([], store, .ok extended_workflow_data)
  | some existing =>
    if existing.isEmpty then ([], store, .ok extended_workflow_data)
    else
      match create_jobs createResp existing (extended_workflow_data.map (fun p => p.2)) with
      | ([], calls) => (calls, store, .ok extended_workflow_data)
      | (new_job_ids, calls) =>
        match update_extended_workflow_data_with_job_ids extended_workflow_data
            workflow_data state_file_workflow_details existing_jobs_names
            (some new_job_ids) with
        | .error e => (calls, store, .error e)
        | .ok ext2 =>
          match update_state_file ext2 store now with
          | (store2, .error e) => (calls, store2, .error e)
          | (store2, .ok _) => (calls, store2, .ok ext2)

/-- The network POSTs one reconciliation run issues, per phase. -/
structure RunTrace where
  updates : List (Option Nat × JobDict)
  deletes : List (Option Nat)
  creates : List JobDict
deriving DecidableEq, Repr

/-- run_workflow (main.py lines 349-375) together with the state read of
process_workflow (lines 160-163): read the last-applied snapshot from the
current key — note `.get("config", {})` is called on the raw read result,
so a failed read (None) raises AttributeError — then run the update, delete
and create phases on the shared data.  The desired mappings are parameters
(they are a pure function of the config file, which is fixed for a run),
`existing_jobs_names` is the get_jobs result (None models a failed listing)
and `now` the timestamp.  An exception in a phase aborts the run. -/
def run_workflow (respOk : Option Nat → JobDict → Bool)
    (delOk : Option Nat → Bool) (createResp : JobDict → Option Nat)
    (extended_workflow_data : Ext) (workflow_data : List (String × WorkflowCfg))
    (existing_jobs_names : Option (List String)) (store : Store) (now : String) :
    RunTrace × Store × Except PyError Ext :=
  match read_json_file_from_s3 store BUCKET_NAME CURRENT_STATE_FILEPATH with
  | .error e => (⟨[], [], []⟩, store, .error e)
  | .ok none => (⟨[], [], []⟩, store, .error .attributeError)
  | .ok (some snap) =>
    match update_jobs_workflow respOk extended_workflow_data workflow_data
        snap.config existing_jobs_names store now with
    | (tU, s1, .error e) => (⟨tU, [], []⟩, s1, .error e)
    | (tU, s1, .ok e1) =>
      match delete_jobs_workflow delOk e1 workflow_data snap.config
          existing_jobs_names s1 now with
      | (tD, s2, .error e) => (⟨tU, tD, []⟩, s2, .error e)
      | (tD, s2, .ok e2) =>
        match create_jobs_workflow createResp e2 workflow_data snap.config
            existing_jobs_names s2 now with
        | (tC, s3, r3) => (⟨tU, tD, tC⟩, s3, r3)

/-- The job-identifier reattachment rule exactly as the specification words
it (section 4.3, `attachIds`): walk the desired workflows in order; a
workflow whose display name is in the live inventory is assigned the
identifier recorded under its workflow name in the last snapshot (None when
absent there); otherwise, with a non-empty fresh-identifier queue, the next
identifier is popped FIFO and assigned; otherwise the workflow is left
untouched.  Stated as a second definition to be compared with the code's
update_extended_workflow_data_with_job_ids. -/
def attachIds_spec : Ext → List (String × WorkflowCfg) → Ext → List String → List Nat → Ext
  | ext, [], _, _, _ => ext
  | ext, (workflow_name, details) :: rest, sd, liveNames, freshIds =>
    if liveNames.contains details.job_name then
      attachIds_spec (setJobId ext workflow_name (stateJobId sd workflow_name))
        rest sd liveNames freshIds
    else
      match freshIds with
      | jid :: qrest =>
        attachIds_spec (setJobId ext workflow_name (some jid)) rest sd liveNames qrest
      | [] => attachIds_spec ext rest sd liveNames []

/-! Sample data used by the concrete theorems and witnesses. -/

/-- A sample rendered job with display name "jobA". -/
def sampleJob : RenderedJob := ⟨"jobA", [], [], "0 0 12 * * ?", []⟩

/-- The sample job as a fresh desired entry: no job_id key. -/
def sampleNoId : JobDict := ⟨sampleJob, none⟩

/-- The sample job as a snapshot entry carrying job identifier 7. -/
def sampleWithId7 : JobDict := ⟨sampleJob, some (some 7)⟩

/-- A rendered job with display name "alpha" (the C6 scenario). -/
def alphaJob : RenderedJob := ⟨"alpha", [], [], "0 0 12 * * ?", []⟩

/-- The "alpha" job as a fresh desired entry. -/
def alphaDict : JobDict := ⟨alphaJob, none⟩

/-- A stored current snapshot whose config carries sampleJob with id 7. -/
def snapC2 : StateSnapshot := ⟨⟨"1.0", "t0"⟩, [("workflow1", sampleWithId7)]⟩

/-- A store holding snapC2 under the current key. -/
def storeC2 : Store := [(CURRENT_STATE_FILEPATH, snapC2)]

/-- A store whose current snapshot is labelled version "2.3". -/
def storeC4 : Store := [(CURRENT_STATE_FILEPATH, ⟨⟨"2.3", "t0"⟩, []⟩)]

/-- A store holding a current snapshot with an empty config mapping. -/
def storeC6 : Store := [(CURRENT_STATE_FILEPATH, ⟨⟨"1.0", "t0"⟩, []⟩)]

/-! Helper lemmas. -/

/-- Reading the current key never trips the (non-empty) guard: it returns
the store lookup. -/
theorem read_current_eq (store : Store) :
    read_json_file_from_s3 store BUCKET_NAME CURRENT_STATE_FILEPATH
      = .ok (List.lookup CURRENT_STATE_FILEPATH store) := rfl

/-- update_state_file can never persist anything: when the current snapshot
is unreadable, get_current_version raises TypeError; when it is readable,
get_current_version returns None, the new label is "1.0" and the historic
write raises ValueError at its inverted guard (the key is non-empty).
Either way the store is returned unchanged. -/
theorem update_state_file_never_persists (ext : Ext) (store : Store) (now : String) :
    update_state_file ext store now
      = (store, .error (match List.lookup CURRENT_STATE_FILEPATH store with
          | none => PyError.typeError
          | some _ => PyError.valueError)) := by
  unfold update_state_file get_current_version
  rw [read_current_eq]
  cases h : List.lookup CURRENT_STATE_FILEPATH store with
  | none => rfl
  | some snap => rfl

/-- The update phase leaves the store untouched on every path. -/
theorem update_jobs_workflow_store (respOk : Option Nat → JobDict → Bool)
    (ext : Ext) (wd : List (String × WorkflowCfg)) (sd : Ext)
    (existing : Option (List String)) (store : Store) (now : String) :
    (update_jobs_workflow respOk ext wd sd existing store now).2.1 = store := by
  unfold update_jobs_workflow
  split
  · rfl
  · split
    · rfl
    · split
      · rfl
      · rw [update_state_file_never_persists]

/-- The delete phase leaves the store untouched on every path. -/
theorem delete_jobs_workflow_store (delOk : Option Nat → Bool)
    (ext : Ext) (wd : List (String × WorkflowCfg)) (sd : Ext)
    (existing : Option (List String)) (store : Store) (now : String) :
    (delete_jobs_workflow delOk ext wd sd existing store now).2.1 = store := by
  unfold delete_jobs_workflow
  split
  · rfl
  · split
    · rfl
    · split
      · rfl
      · rw [update_state_file_never_persists]

/-- The create phase leaves the store untouched on every path. -/
theorem create_jobs_workflow_store (createResp : JobDict → Option Nat)
    (ext : Ext) (wd : List (String × WorkflowCfg)) (sd : Ext)
    (existing : Option (List String)) (store : Store) (now : String) :
    (create_jobs_workflow createResp ext wd sd existing store now).2.1 = store := by
  unfold create_jobs_workflow
  split
  · rfl
  · split
    · rfl
    · split
      · rfl
      · split
        · rfl
        · rw [update_state_file_never_persists]

/-- A full run leaves the store untouched on every path: no write can ever
succeed, so the "current" blob never advances. -/
theorem run_workflow_store (respOk : Option Nat → JobDict → Bool)
    (delOk : Option Nat → Bool) (createResp : JobDict → Option Nat)
    (ext : Ext) (wd : List (String × WorkflowCfg))
    (existing : Option (List String)) (store : Store) (now : String) :
    (run_workflow respOk delOk createResp ext wd existing store now).2.1 = store := by
  unfold run_workflow
  split
  · rfl
  · rfl
  · next snap heq =>
    split
    · next tU s1 e heq1 =>
      have h1 := update_jobs_workflow_store respOk ext wd snap.config existing store now
      rw [heq1] at h1
      exact h1
    · next tU s1 e1 heq1 =>
      have h1 := update_jobs_workflow_store respOk ext wd snap.config existing store now
      rw [heq1] at h1
      split
      · next tD s2 e heq2 =>
        have h2 := delete_jobs_workflow_store delOk e1 wd snap.config existing s1 now
        rw [heq2] at h2
        exact h2.trans h1
      · next tD s2 e2 heq2 =>
        have h2 := delete_jobs_workflow_store delOk e1 wd snap.config existing s1 now
        rw [heq2] at h2
        split
        next tC s3 r3 heq3 =>
          have h3 := create_jobs_workflow_store createResp e2 wd snap.config existing s2 now
          rw [heq3] at h3
          exact (h3.trans h2).trans h1

/-- The POSTs the update phase issues are exactly the queued batch, zipped
id-with-payload, on every path (the empty queue issues none). -/
theorem update_jobs_workflow_trace (respOk : Option Nat → JobDict → Bool)
    (ext : Ext) (wd : List (String × WorkflowCfg)) (sd : Ext)
    (existing : Option (List String)) (store : Store) (now : String) :
    (update_jobs_workflow respOk ext wd sd existing store now).1
      = ((jobs_to_update ext sd).map (fun x => x.2.1)).zip
          ((jobs_to_update ext sd).map (fun x => x.2.2)) := by
  unfold update_jobs_workflow
  split
  · next heq => rw [heq]; rfl
  · next jtu heq =>
    split
    · next calls heq2 => exact (congrArg Prod.snd heq2).symm
    · next calls heq2 =>
      split
      · next e heq3 => exact (congrArg Prod.snd heq2).symm
      · next ext2 heq3 =>
        rw [update_state_file_never_persists]
        exact (congrArg Prod.snd heq2).symm

/-- Under a readable current snapshot, the update POSTs of a full run are
those of its update phase run against the snapshot's config. -/
theorem run_workflow_updates (respOk : Option Nat → JobDict → Bool)
    (delOk : Option Nat → Bool) (createResp : JobDict → Option Nat)
    (ext : Ext) (wd : List (String × WorkflowCfg))
    (existing : Option (List String)) (store : Store) (now : String)
    (snap : StateSnapshot)
    (hr : List.lookup CURRENT_STATE_FILEPATH store = some snap) :
    (run_workflow respOk delOk createResp ext wd existing store now).1.updates
      = (update_jobs_workflow respOk ext wd snap.config existing store now).1 := by
  unfold run_workflow
  split
  · next e heq =>
    rw [read_current_eq, hr] at heq
    cases heq
  · next heq =>
    rw [read_current_eq, hr] at heq
    cases heq
  · next snap2 heq =>
    rw [read_current_eq, hr] at heq
    cases heq
    split
    · next tU s1 e heq1 => rw [heq1]
    · next tU s1 e1 heq1 =>
      split
      · next tD s2 e heq2 => rw [heq1]
      · next tD s2 e2 heq2 =>
        split
        next tC s3 r3 heq3 => rw [heq1]

/-- Setting a job id never changes which keys are present. -/
theorem lookup_setJobId_isSome (ext : Ext) (wn : String) (v : Option Nat) (k : String) :
    (List.lookup k (setJobId ext wn v)).isSome = (List.lookup k ext).isSome := by
  induction ext with
  | nil => rfl
  | cons p rest ih =>
    obtain ⟨pk, pv⟩ := p
    simp only [setJobId, List.map_cons] at ih ⊢
    simp only [List.lookup]
    cases bk : k == pk <;> simp [bk, ih]

/-- The loop of update_extended_workflow_data_with_job_ids computes exactly
the specification's attachIds rule, provided each workflow name indexes an
entry of the extended data (otherwise the code raises KeyError). -/
theorem updateExtendedLoop_eq_spec (sd : Ext) (existing : List String) :
    ∀ (wd : List (String × WorkflowCfg)) (ext : Ext) (queue : List Nat),
      (∀ p ∈ wd, (List.lookup p.1 ext).isSome) →
      updateExtendedLoop sd existing wd ext queue
        = .ok (attachIds_spec ext wd sd existing queue) := by
  intro wd
  induction wd with
  | nil => intro ext queue h; rfl
  | cons hd tl ih =>
    intro ext queue h
    have hhd : (List.lookup hd.1 ext).isSome = true := h hd (List.mem_cons_self hd tl)
    have htl : ∀ p ∈ tl, (List.lookup p.1 ext).isSome :=
      fun p hp => h p (List.mem_cons_of_mem hd hp)
    have htl2 : ∀ (v : Option Nat) (p : String × WorkflowCfg), p ∈ tl →
        (List.lookup p.1 (setJobId ext hd.1 v)).isSome = true :=
      fun v p hp => (lookup_setJobId_isSome ext hd.1 v p.1).trans (htl p hp)
    cases hd with
    | mk wn details =>
      unfold updateExtendedLoop attachIds_spec
      by_cases hc : existing.contains details.job_name
      · simp only [hc, if_true, hhd, ih]
        exact ih _ _ (htl2 (stateJobId sd wn))
      · cases queue with
        | nil => simp only [hc, if_false, Bool.false_eq_true, ite_false]; exact ih _ _ htl
        | cons jid qrest =>
          simp only [hc, if_false, Bool.false_eq_true, ite_false, hhd, if_true]
          exact ih _ _ (htl2 (some jid))

/-! Claim theorems. -/

/-- Claim C1: the code_bug evaluation.  A desired rendered job that is
deep-equal to the snapshot entry's payload, where that entry additionally
carries its attached job identifier (id 7), is NOT classified as a no-op:
the Phase A comparison includes the snapshot entry's job_id key (the pop
happens only after the comparison), so the workflow is queued for update
(with the previous identifier carried forward), where the claim requires
the identifier to be irrelevant and the workflow to be skipped. -/
theorem c1_job_id_breaks_noop_detection :
    sampleNoId.payload = sampleWithId7.payload
    ∧ jobs_to_update [("workflow1", sampleNoId)] [("workflow1", sampleWithId7)]
        = [("workflow1", (some 7, sampleNoId))] := ⟨rfl, rfl⟩

/-- Claim C2: the code_bug evaluation.  With a desired config whose only
workflow renders identically to the snapshot entry's payload (the entry
carrying id 7), a live inventory containing its name, and every update POST
succeeding, the first run issues one update POST and then crashes with
ValueError inside the snapshot write (inverted guard), leaving the store
unchanged; the second run over the returned store issues the SAME update
POST again — not zero calls as the idempotence claim requires. -/
theorem c2_second_run_repeats_update_call :
    run_workflow (fun _ _ => true) (fun _ => true) (fun _ => some 99)
        [("workflow1", sampleNoId)] [("workflow1", ⟨"jobA"⟩)] (some ["jobA"]) storeC2 "t1"
      = (⟨[(some 7, sampleNoId)], [], []⟩, storeC2, .error .valueError)
    ∧ run_workflow (fun _ _ => true) (fun _ => true) (fun _ => some 99)
        [("workflow1", sampleNoId)] [("workflow1", ⟨"jobA"⟩)] (some ["jobA"])
        ((run_workflow (fun _ _ => true) (fun _ => true) (fun _ => some 99)
            [("workflow1", sampleNoId)] [("workflow1", ⟨"jobA"⟩)] (some ["jobA"])
            storeC2 "t1").2.1) "t2"
      = (⟨[(some 7, sampleNoId)], [], []⟩, storeC2, .error .valueError) := ⟨rfl, rfl⟩

/-- Claim C3: the code_bug evaluation.  With the repository's own non-empty
bucket name and non-empty current key, write_json_to_s3 raises ValueError
at its inverted guard (`if not bucket_name or s3_key`), so no snapshot is
stored and no round-trip is possible. -/
theorem c3_snapshot_write_raises :
    BUCKET_NAME ≠ "" ∧ CURRENT_STATE_FILEPATH ≠ ""
    ∧ write_json_to_s3 snapC2 BUCKET_NAME CURRENT_STATE_FILEPATH []
        = ([], .error .valueError) := ⟨by decide, by decide, rfl⟩

/-- Claim C4: the code_bug evaluation.  With a stored current snapshot
labelled "2.3", get_current_version returns None (its `data is None` test
is inverted, so a readable snapshot falls through to `return None`), so the
label generated for the next snapshot would be generate_version None = "1.0"
rather than the odometer successor "2.4" of the stored label — and the
snapshot write itself raises ValueError, so no advancing label is ever
persisted. -/
theorem c4_version_label_never_advances :
    get_current_version storeC4 BUCKET_NAME CURRENT_STATE_FILEPATH = .ok none
    ∧ generate_version (some "2.3") = .ok "2.4"
    ∧ generate_version none = .ok "1.0"
    ∧ update_state_file [("workflow1", sampleWithId7)] storeC4 "t1"
        = (storeC4, .error .valueError) := ⟨rfl, rfl, rfl, rfl⟩

/-- Claim C5: the code_bug evaluation.  When the state-store get returns
null (no current snapshot stored), process_workflow's
`read_json_file_from_s3(...).get("config", {})` subscripts None and the run
aborts with AttributeError before any phase executes, instead of proceeding
with an empty last-applied config as the claim states. -/
theorem c5_missing_state_raises_attribute_error :
    read_json_file_from_s3 [] BUCKET_NAME CURRENT_STATE_FILEPATH = .ok none
    ∧ run_workflow (fun _ _ => true) (fun _ => true) (fun _ => none)
        [("workflow1", sampleNoId)] [("workflow1", ⟨"jobA"⟩)] (some ["jobA"]) [] "t1"
      = (⟨[], [], []⟩, [], .error .attributeError) := ⟨rfl, rfl⟩

/-- Claim C6: the counterexample.  On the claim's own scenario — desired =
the single workflow "alpha", an (existing but empty-config) last snapshot,
and a live inventory that was retrieved successfully but is empty — the
create phase issues NO create POST, "alpha" is not created, no identifier
is assigned and the store is unchanged (the run's creates trace is empty),
even though the creation oracle stands ready to return id 123: the
`if existing_jobs_names:` gate treats the empty list like a failed
retrieval.  (The update POST for the brand-new workflow fails in this
model, so the run ends cleanly; the creates component refutes the claim.) -/
theorem c6_counterexample_empty_inventory :
    run_workflow (fun _ _ => false) (fun _ => true) (fun _ => some 123)
        [("workflow1", alphaDict)] [("workflow1", ⟨"alpha"⟩)] (some []) storeC6 "t1"
      = (⟨[(none, alphaDict)], [], []⟩, storeC6, .ok [("workflow1", alphaDict)]) := rfl

/-- Claim C6 (amended): whenever the live inventory comes back as the empty
list — retrieval succeeded but found nothing — create_jobs_workflow is
skipped entirely: no create POST is issued, nothing is created, and no
snapshot is persisted; the extended data is returned untouched. -/
theorem c6_empty_inventory_skips_create (createResp : JobDict → Option Nat)
    (ext : Ext) (wd : List (String × WorkflowCfg)) (sd : Ext)
    (store : Store) (now : String) :
    create_jobs_workflow createResp ext wd sd (some []) store now
      = ([], store, .ok ext) := rfl

/-- Claim C6 witness: the amended theorem applied at the scenario input. -/
theorem c6_empty_inventory_skips_create_witness :
    create_jobs_workflow (fun _ => some 123) [("workflow1", alphaDict)]
        [("workflow1", ⟨"alpha"⟩)] [] (some []) [] "t1"
      = ([], [], .ok [("workflow1", alphaDict)]) :=
  c6_empty_inventory_skips_create (fun _ => some 123) [("workflow1", alphaDict)]
    [("workflow1", ⟨"alpha"⟩)] [] [] "t1"

/-- Claim C7: the code_bug evaluation.  With the live-inventory listing
failed (None): the create phase is indeed skipped (second conjunct), but
the update phase does NOT run to completion without raising — after its
batch succeeds, the id-reattachment evaluates `job_name in None` and the
phase aborts with TypeError (first conjunct). -/
theorem c7_none_inventory_raises_after_successful_batch :
    update_jobs_workflow (fun _ _ => true) [("workflow1", sampleNoId)]
        [("workflow1", ⟨"jobA"⟩)] [] none [] "t1"
      = ([(none, sampleNoId)], [], .error .typeError)
    ∧ create_jobs_workflow (fun _ => some 99) [("workflow1", sampleNoId)]
        [("workflow1", ⟨"jobA"⟩)] [] none [] "t1"
      = ([], [], .ok [("workflow1", sampleNoId)]) := ⟨rfl, rfl⟩

/-- Claim C8: when the update batch reports failure, the update phase
persists nothing — it returns the store unchanged and the extended data
unmutated, having issued exactly the queued POSTs — the whole run leaves
the store unchanged, and a second run over the resulting store re-issues
exactly the same update batch (the queue is a pure function of the desired
data and the unchanged snapshot). -/
theorem c8_failed_update_batch_requeues
    (respOk : Option Nat → JobDict → Bool) (delOk : Option Nat → Bool)
    (createResp : JobDict → Option Nat) (ext : Ext)
    (wd : List (String × WorkflowCfg)) (existing : Option (List String))
    (store : Store) (now now2 : String) (snap : StateSnapshot)
    (hread : List.lookup CURRENT_STATE_FILEPATH store = some snap)
    (hfail : (update_jobs respOk ((jobs_to_update ext snap.config).map (fun x => x.2.1))
        ((jobs_to_update ext snap.config).map (fun x => x.2.2))).1 = false) :
    update_jobs_workflow respOk ext wd snap.config existing store now
        = (((jobs_to_update ext snap.config).map (fun x => x.2.1)).zip
            ((jobs_to_update ext snap.config).map (fun x => x.2.2)), store, .ok ext)
    ∧ (run_workflow respOk delOk createResp ext wd existing store now).2.1 = store
    ∧ (run_workflow respOk delOk createResp ext wd existing
          ((run_workflow respOk delOk createResp ext wd existing store now).2.1)
          now2).1.updates
        = ((jobs_to_update ext snap.config).map (fun x => x.2.1)).zip
            ((jobs_to_update ext snap.config).map (fun x => x.2.2)) := by
  refine ⟨?_, run_workflow_store respOk delOk createResp ext wd existing store now, ?_⟩
  · unfold update_jobs_workflow
    split
    · next heq => rw [heq]; rfl
    · next jtu hne =>
      split
      · next calls heqU =>
        have hcalls : calls
            = ((jobs_to_update ext snap.config).map (fun x => x.2.1)).zip
                ((jobs_to_update ext snap.config).map (fun x => x.2.2)) :=
          (congrArg Prod.snd heqU).symm
        rw [hcalls]
      · next calls heqU =>
        have h1 := congrArg Prod.fst heqU
        rw [hfail] at h1
        simp at h1
  · rw [run_workflow_store respOk delOk createResp ext wd existing store now,
      run_workflow_updates respOk delOk createResp ext wd existing store now2 snap hread,
      update_jobs_workflow_trace]

/-- Claim C8 witness: a one-workflow instance whose only update POST fails;
the phase returns the unchanged store and data after issuing the single
queued POST, and the second run issues that same POST again. -/
theorem c8_failed_update_batch_requeues_witness :
    update_jobs_workflow (fun _ _ => false) [("workflow1", sampleNoId)]
        [("workflow1", ⟨"jobA"⟩)] snapC2.config (some ["jobA"]) storeC2 "t1"
      = ([(some 7, sampleNoId)], storeC2, .ok [("workflow1", sampleNoId)])
    ∧ (run_workflow (fun _ _ => false) (fun _ => true) (fun _ => some 99)
          [("workflow1", sampleNoId)] [("workflow1", ⟨"jobA"⟩)] (some ["jobA"])
          storeC2 "t1").2.1
        = storeC2
    ∧ (run_workflow (fun _ _ => false) (fun _ => true) (fun _ => some 99)
          [("workflow1", sampleNoId)] [("workflow1", ⟨"jobA"⟩)] (some ["jobA"])
          ((run_workflow (fun _ _ => false) (fun _ => true) (fun _ => some 99)
              [("workflow1", sampleNoId)] [("workflow1", ⟨"jobA"⟩)] (some ["jobA"])
              storeC2 "t1").2.1) "t2").1.updates
        = [(some 7, sampleNoId)] :=
  c8_failed_update_batch_requeues (fun _ _ => false) (fun _ => true) (fun _ => some 99)
    [("workflow1", sampleNoId)] [("workflow1", ⟨"jobA"⟩)] (some ["jobA"]) storeC2
    "t1" "t2" snapC2 rfl rfl

/-- Claim C9: the code's identifier reattachment computes exactly the
specification's attachIds rule — live display name takes the identifier
recorded under the workflow's name in the last snapshot (None when absent),
otherwise a non-empty fresh-id queue is popped FIFO, otherwise the entry is
left untouched — provided every desired workflow name indexes an entry of
the extended mapping (as process_workflow guarantees; otherwise the code
raises KeyError). -/
theorem c9_attach_ids_refine (ext : Ext) (wd : List (String × WorkflowCfg))
    (sd : Ext) (existing : List String) (new_job_ids : Option (List Nat))
    (h : ∀ p ∈ wd, (List.lookup p.1 ext).isSome) :
    update_extended_workflow_data_with_job_ids ext wd sd (some existing) new_job_ids
      = .ok (attachIds_spec ext wd sd existing (new_job_ids.getD [])) := by
  cases wd with
  | nil => rfl
  | cons hd tl =>
    exact updateExtendedLoop_eq_spec sd existing (hd :: tl) ext (new_job_ids.getD []) h

/-- Claim C9 witness: with liveNames = ["jobA"] and the last snapshot
carrying id 7 for workflow1, the workflow whose display name is "jobA" is
assigned id 7 and the fresh id 99 is left unconsumed. -/
theorem c9_attach_ids_refine_witness :
    update_extended_workflow_data_with_job_ids [("workflow1", sampleNoId)]
        [("workflow1", ⟨"jobA"⟩)] [("workflow1", sampleWithId7)] (some ["jobA"])
        (some [99])
      = .ok [("workflow1", sampleWithId7)] :=
  c9_attach_ids_refine [("workflow1", sampleNoId)] [("workflow1", ⟨"jobA"⟩)]
    [("workflow1", sampleWithId7)] ["jobA"] (some [99]) (by decide)

/-- Claim C10: the version sequencer is a pure function with
nextVersion(None) = "1.0" (likewise for the falsy empty string),
nextVersion("1.9") = "2.0", nextVersion("3.4") = "3.5"; a string that does
not parse as two dot-separated integers propagates a ValueError with no
fallback to "1.0", and a parsed (major, minor) follows the base-10
odometer: minor 9 rolls over to major+1/minor 0, else minor+1. -/
theorem c10_generate_version_pure_odometer :
    generate_version none = .ok "1.0"
    ∧ generate_version (some "") = .ok "1.0"
    ∧ generate_version (some "1.9") = .ok "2.0"
    ∧ generate_version (some "3.4") = .ok "3.5"
    ∧ (∀ s : String, s ≠ "" → parsedVersion s = none →
        generate_version (some s) = .error .valueError)
    ∧ (∀ (s : String) (major minor : Int), s ≠ "" →
        parsedVersion s = some (major, minor) →
        generate_version (some s)
          = .ok (if minor == 9 then toString (major + 1) ++ ".0"
                 else toString major ++ "." ++ toString (minor + 1))) := by
  refine ⟨rfl, rfl, rfl, rfl, ?_, ?_⟩
  · intro s hs hp
    simp [generate_version, hs, hp]
  · intro s major minor hs hp
    by_cases h9 : minor = 9 <;> simp [generate_version, hs, hp, h9]

/-- Claim C10 witness: a malformed stored version (three dot-separated
fields) propagates as a ValueError, with no fallback to "1.0". -/
theorem c10_generate_version_pure_odometer_witness :
    generate_version (some "not.a.version") = .error .valueError :=
  c10_generate_version_pure_odometer.2.2.2.2.1 "not.a.version" (by decide) rfl

end DatabricksOps
